import Mathlib

/-!
# LuStA Messenger — verification of the routing/registry core

Shallow embedding of `src/database.py` and `src/main.py`:

* `Message` mirrors the SQLAlchemy `Message` model (`is_read` is the integer
  column, default `0`; the code has no separate `Delivered` value — a live
  push and a history fetch both write `is_read = 1`).
* `User` mirrors the `User` model (only the fields the core reads).
* The process-wide dicts `active_connections` and `user_sessions` are
  embedded as string-keyed association lists with Python-dict semantics
  (insert replaces the entry for an existing key, delete removes it).
* `get_user_chats`, `get_messages` embed the HTTP query handlers;
  `wsConnect`, `handleSendMessage`, `wsDisconnect` embed the pieces of
  `websocket_endpoint` (connection registration at entry, the
  `send_message` branch of the frame loop, and the `except` branches).
  SQLAlchemy's `order_by` is modelled with a stable sort by timestamp.
  A `send_text` to the recipient that raises is modelled by the flag
  `pushOk = false`: in the source the exception propagates out of the
  `while` loop into `except Exception`, which deletes the sender's entry
  and ends the handler, so no `message_sent` acknowledgment is sent.
-/

structure User where
  id : Nat
  username : String
  deriving Repr, DecidableEq

structure Message where
  id : Nat
  sender_id : Nat
  receiver_id : Nat
  content : String
  timestamp : Nat
  is_read : Nat
  deriving Repr, DecidableEq

abbrev DB := List Message

/-- One value of the `active_connections` dict: the websocket handle
(modelled as a numeric handle) and the session user id. -/
structure ConnEntry where
  ws : Nat
  user_id : Nat
  deriving Repr, DecidableEq

/-- `active_connections`: username-keyed dict. -/
abbrev Connections := List (String × ConnEntry)

/-- `user_sessions`: username-keyed dict of user ids. -/
abbrev Sessions := List (String × Nat)

/-- Python `d.get(k)` / `k in d` on a string-keyed dict. -/
def dictLookup {α : Type} : List (String × α) → String → Option α
  | [], _ => none
  | (k, v) :: rest, u => if k == u then some v else dictLookup rest u

/-- Python `d[k] = v`: replaces the entry of an existing key, else appends. -/
def dictInsert {α : Type} : List (String × α) → String → α → List (String × α)
  | [], u, e => [(u, e)]
  | (k, v) :: rest, u, e =>
      if k == u then (u, e) :: rest else (k, v) :: dictInsert rest u e

/-- Python `del d[k]` (for the single entry of key `k`). -/
def dictErase {α : Type} : List (String × α) → String → List (String × α)
  | [], _ => []
  | (k, v) :: rest, u => if k == u then rest else (k, v) :: dictErase rest u

/-- A dict's keys are pairwise distinct (holds for every real Python dict). -/
abbrev keysNodup {α : Type} (d : List (String × α)) : Prop :=
  (d.map Prod.fst).Nodup

/-- SQL filter of `get_messages` / `last_message`:
`(sender_id == uid AND receiver_id == pid) OR (sender_id == pid AND receiver_id == uid)`. -/
def bothDirections (uid pid : Nat) (m : Message) : Bool :=
  (m.sender_id == uid && m.receiver_id == pid) ||
    (m.sender_id == pid && m.receiver_id == uid)

/-- `order_by(Message.timestamp ...)` comparison key. -/
def tsLe (a b : Message) : Prop := a.timestamp ≤ b.timestamp

instance : DecidableRel tsLe := fun a b => Nat.decLe a.timestamp b.timestamp

instance : IsTotal Message tsLe := ⟨fun a b => Nat.le_total a.timestamp b.timestamp⟩

instance : IsTrans Message tsLe := ⟨fun _ _ _ h h' => Nat.le_trans h h'⟩

/-- The query of `get_messages`: both directions of the pair, ascending by
timestamp (`order_by(Message.timestamp.asc())`). -/
def queryBothDirections (uid pid : Nat) (db : DB) : List Message :=
  List.insertionSort tsLe (db.filter (fun m => bothDirections uid pid m))

/-- The body of the read-marking loop of `get_messages`:
`if message.receiver_id == user_id and message.is_read == 0: message.is_read = 1`. -/
def markOne (uid : Nat) (m : Message) : Message :=
  if m.receiver_id == uid && m.is_read == 0 then { m with is_read := 1 } else m

/-- The read-marking loop as it acts on the query result. -/
def markMessagesRead (uid : Nat) (msgs : List Message) : List Message :=
  msgs.map (markOne uid)

/-- The same mutation as seen by one row of the whole table: only rows in
the query result (i.e. satisfying `bothDirections`) are objects of the loop. -/
def markDbOne (uid pid : Nat) (m : Message) : Message :=
  if bothDirections uid pid m && (m.receiver_id == uid && m.is_read == 0) then
    { m with is_read := 1 }
  else m

/-- The committed table after the read-marking loop of `get_messages`. -/
def markDbRead (uid pid : Nat) (db : DB) : DB :=
  db.map (markDbOne uid pid)

/-- One serialized message of the `get_messages` response
(`bool(msg.is_read)` is `true` iff the column is nonzero). -/
structure MsgOut where
  id : Nat
  sender_id : Nat
  sender_username : String
  content : String
  timestamp : Nat
  is_read : Bool
  deriving Repr, DecidableEq

def serializeMsg (users : List User) (m : Message) : MsgOut :=
  { id := m.id
    sender_id := m.sender_id
    sender_username := ((users.find? (fun u => u.id == m.sender_id)).map User.username).getD ""
    content := m.content
    timestamp := m.timestamp
    is_read := m.is_read != 0 }

/-- `GET /messages/{user_id}/{partner_id}`: returns the committed table and
the response list, serialized from the already-marked result objects. -/
def get_messages (uid pid : Nat) (users : List User) (db : DB) :
    DB × List MsgOut :=
  (markDbRead uid pid db,
   (markMessagesRead uid (queryBothDirections uid pid db)).map (serializeMsg users))

/-- `sent_chats`: distinct receiver ids of messages sent by `uid`. -/
def sentPartnerIds (uid : Nat) (db : DB) : List Nat :=
  ((db.filter (fun m => m.sender_id == uid)).map Message.receiver_id).dedup

/-- `received_chats`: distinct sender ids of messages received by `uid`. -/
def receivedPartnerIds (uid : Nat) (db : DB) : List Nat :=
  ((db.filter (fun m => m.receiver_id == uid)).map Message.sender_id).dedup

/-- `chat_partner_ids = set(sent) | set(received)` (as a duplicate-free list). -/
def chatPartnerIds (uid : Nat) (db : DB) : List Nat :=
  (sentPartnerIds uid db ++ receivedPartnerIds uid db).dedup

/-- `last_message`: most recent message of the pair
(`order_by(Message.timestamp.desc()).first()`). -/
def lastMessage (uid pid : Nat) (db : DB) : Option Message :=
  (List.insertionSort (fun a b => tsLe b a) (db.filter (fun m => bothDirections uid pid m))).head?

/-- The `unread_count` query:
`sender_id == partner_id AND receiver_id == user_id AND is_read == 0`. -/
def unreadCount (uid pid : Nat) (db : DB) : Nat :=
  (db.filter (fun m =>
    m.sender_id == pid && m.receiver_id == uid && m.is_read == 0)).length

structure ChatSummary where
  partner_id : Nat
  partner_username : String
  last_message : String
  last_message_time : Option Nat
  unread_count : Nat
  deriving Repr, DecidableEq

/-- `GET /chats/{user_id}`. -/
def get_user_chats (uid : Nat) (users : List User) (db : DB) : List ChatSummary :=
  (chatPartnerIds uid db).filterMap (fun pid =>
    match users.find? (fun u => u.id == pid) with
    | none => none
    | some partner =>
        let lm := lastMessage uid pid db
        some { partner_id := partner.id
               partner_username := partner.username
               last_message := (lm.map Message.content).getD ""
               last_message_time := lm.map Message.timestamp
               unread_count := unreadCount uid pid db })

/-- Outbound frames of the websocket protocol. -/
inductive Frame where
  | error (message : String)
  | newMessage (fromUser : String) (fromId : Nat) (message : String)
      (timestamp : Nat) (messageId : Nat)
  | messageSent (toUser : String) (messageId : Nat) (timestamp : Nat)
  | onlineUsers (users : List String) (count : Nat)
  deriving Repr, DecidableEq

/-- SQLite autoincrement primary key for the next inserted row. -/
def nextMessageId (db : DB) : Nat :=
  (db.map Message.id).foldr Nat.max 0 + 1

/-- Result of the entry of `websocket_endpoint` (accept, session lookup,
registration in `active_connections`). `closed` lists the websocket handles
the code closes during this step. -/
structure ConnectResult where
  conns : Connections
  closed : List Nat
  accepted : Bool
  deriving Repr, DecidableEq

def wsConnect (username : String) (ws : Nat) (sessions : Sessions)
    (conns : Connections) : ConnectResult :=
  match dictLookup sessions username with
  | none => { conns := conns, closed := [ws], accepted := false }
  | some uid =>
      { conns := dictInsert conns username { ws := ws, user_id := uid }
        closed := []
        accepted := true }

/-- Result of processing one `send_message` frame. `pushed` is the
`new_message` frame delivered to the recipient's websocket handle (if the
push happened and succeeded); `senderFrames` are the frames written back to
the handling connection; `terminated = true` means the raised push exception
reached the `except` branch, which deleted the sender's entry and ended the
handler loop. -/
structure SendResult where
  db : DB
  conns : Connections
  senderFrames : List Frame
  pushed : Option (Nat × Frame)
  terminated : Bool
  deriving Repr, DecidableEq

def handleSendMessage (username : String) (user_id : Nat) (now : Nat)
    (pushOk : Bool) (toUsername messageText : String) (users : List User)
    (db : DB) (conns : Connections) : SendResult :=
  match users.find? (fun u => u.username == toUsername) with
  | none =>
      { db := db
        conns := conns
        senderFrames := [Frame.error ("❌ Пользователь " ++ toUsername ++ " не найден")]
        pushed := none
        terminated := false }
  | some receiver =>
      let mid := nextMessageId db
      let newMsg : Message :=
        { id := mid, sender_id := user_id, receiver_id := receiver.id
          content := messageText, timestamp := now, is_read := 0 }
      let db1 := db ++ [newMsg]
      match dictLookup conns toUsername with
      | some entry =>
          if pushOk then
            let db2 := db1.map (fun m =>
              if m.id == mid then { m with is_read := 1 } else m)
            { db := db2
              conns := conns
              senderFrames := [Frame.messageSent toUsername mid now]
              pushed := some (entry.ws, Frame.newMessage username user_id messageText now mid)
              terminated := false }
          else
            { db := db1
              conns := dictErase conns username
              senderFrames := []
              pushed := none
              terminated := true }
      | none =>
          { db := db1
            conns := conns
            senderFrames := [Frame.messageSent toUsername mid now]
            pushed := none
            terminated := false }

/-- The `except WebSocketDisconnect` / `except Exception` branches:
`if username in active_connections: del active_connections[username]` —
note the source compares no connection handle. -/
def wsDisconnect (username : String) (conns : Connections) : Connections :=
  dictErase conns username

/-- The operations of the core that write to the message table. -/
inductive Op where
  | send (username : String) (user_id : Nat) (now : Nat) (pushOk : Bool)
      (toUsername messageText : String)
  | fetchHistory (user_id partner_id : Nat)

def applyOp (users : List User) (conns : Connections) (db : DB) : Op → DB
  | Op.send u uid now ok toU txt =>
      (handleSendMessage u uid now ok toU txt users db conns).db
  | Op.fetchHistory uid pid => (get_messages uid pid users db).1

/-- The content of a serialized message apart from its read flag: id,
sender id, sender name, text and timestamp. -/
def projOut (r : MsgOut) : Nat × Nat × String × String × Nat :=
  (r.id, r.sender_id, r.sender_username, r.content, r.timestamp)

/-- Concrete directory for the spec's scenario: users `a` (id 1) and `b` (id 2). -/
def usersAB : List User :=
  [{ id := 1, username := "a" }, { id := 2, username := "b" }]

/-- Session table after `a` logged in. -/
def sessionsA : Sessions := [("a", 1)]

/-- Scenario: `a` connects (websocket handle 10) and sends `"hi"` to `b`
while `b` is offline. -/
def scenarioSend : SendResult :=
  handleSendMessage "a" 1 100 true "b" "hi" usersAB []
    (wsConnect "a" 10 sessionsA []).conns

/-- The message table after the scenario send. -/
def scenarioDb : DB := scenarioSend.db

/-- A concrete unread message from user 1 to user 2, used as a witness input. -/
def msgX : Message :=
  { id := 1, sender_id := 1, receiver_id := 2, content := "x",
    timestamp := 5, is_read := 0 }

/-! ## Helper lemmas -/

theorem dictLookup_cons {α : Type} (k : String) (v : α) (rest : List (String × α))
    (u : String) :
    dictLookup ((k, v) :: rest) u = if k == u then some v else dictLookup rest u :=
  rfl

theorem dictInsert_cons {α : Type} (k : String) (v : α) (rest : List (String × α))
    (u : String) (e : α) :
    dictInsert ((k, v) :: rest) u e =
      if k == u then (u, e) :: rest else (k, v) :: dictInsert rest u e :=
  rfl

theorem dictErase_cons {α : Type} (k : String) (v : α) (rest : List (String × α))
    (u : String) :
    dictErase ((k, v) :: rest) u = if k == u then rest else (k, v) :: dictErase rest u :=
  rfl

theorem dictLookup_dictInsert_self {α : Type} (d : List (String × α)) (u : String)
    (e : α) : dictLookup (dictInsert d u e) u = some e := by
  induction d with
  | nil => simp [dictInsert, dictLookup]
  | cons kv rest ih =>
      obtain ⟨k, v⟩ := kv
      rw [dictInsert_cons]
      by_cases h : k = u
      · simp [h, dictLookup_cons]
      · simp only [beq_iff_eq, h, if_neg, not_false_iff]
        rw [dictLookup_cons]
        simp [h, ih]

theorem dictLookup_dictInsert_ne {α : Type} (d : List (String × α)) (u v : String)
    (e : α) (hne : v ≠ u) : dictLookup (dictInsert d u e) v = dictLookup d v := by
  induction d with
  | nil => simp [dictInsert, dictLookup, Ne.symm hne]
  | cons kv rest ih =>
      obtain ⟨k, w⟩ := kv
      rw [dictInsert_cons]
      by_cases h : k = u
      · subst h
        simp [dictLookup_cons, Ne.symm hne]
      · simp only [beq_iff_eq, h, if_neg, not_false_iff]
        rw [dictLookup_cons, dictLookup_cons]
        by_cases h2 : k = v
        · simp [h2]
        · simp [h2, ih]

theorem mem_keys_dictInsert {α : Type} (d : List (String × α)) (u x : String)
    (e : α) :
    x ∈ (dictInsert d u e).map Prod.fst ↔ x = u ∨ x ∈ d.map Prod.fst := by
  induction d with
  | nil => simp [dictInsert]
  | cons kv rest ih =>
      obtain ⟨k, v⟩ := kv
      rw [dictInsert_cons]
      by_cases h : k = u
      · subst h
        simp
      · simp only [beq_iff_eq, h, if_neg, not_false_iff, List.map_cons,
          List.mem_cons, ih]
        tauto

theorem keysNodup_dictInsert {α : Type} (d : List (String × α)) (u : String)
    (e : α) (h : keysNodup d) : keysNodup (dictInsert d u e) := by
  induction d with
  | nil => simp [keysNodup, dictInsert]
  | cons kv rest ih =>
      obtain ⟨k, v⟩ := kv
      rw [keysNodup, List.map_cons, List.nodup_cons] at h
      rw [keysNodup, dictInsert_cons]
      by_cases hk : k = u
      · subst hk
        rw [if_pos (by simp)]
        rw [List.map_cons, List.nodup_cons]
        exact ⟨h.1, h.2⟩
      · rw [if_neg (by simp [hk])]
        rw [List.map_cons, List.nodup_cons]
        refine ⟨?_, ih h.2⟩
        intro hmem
        rcases (mem_keys_dictInsert rest u k e).mp hmem with h1 | h1
        · exact hk h1
        · exact h.1 h1

theorem dictLookup_eq_none_of_not_mem {α : Type} (d : List (String × α))
    (u : String) (h : u ∉ d.map Prod.fst) : dictLookup d u = none := by
  induction d with
  | nil => rfl
  | cons kv rest ih =>
      obtain ⟨k, v⟩ := kv
      simp only [List.map_cons, List.mem_cons] at h
      push_neg at h
      rw [dictLookup_cons]
      simp [Ne.symm h.1, ih h.2]

theorem dictLookup_dictErase_self {α : Type} (d : List (String × α)) (u : String)
    (h : keysNodup d) : dictLookup (dictErase d u) u = none := by
  induction d with
  | nil => rfl
  | cons kv rest ih =>
      obtain ⟨k, v⟩ := kv
      rw [keysNodup, List.map_cons, List.nodup_cons] at h
      rw [dictErase_cons]
      by_cases hk : k = u
      · subst hk
        rw [if_pos (by simp)]
        exact dictLookup_eq_none_of_not_mem rest k h.1
      · rw [if_neg (by simp [hk]), dictLookup_cons]
        simp [hk, ih h.2]

theorem dictLookup_dictErase_ne {α : Type} (d : List (String × α)) (u v : String)
    (hne : v ≠ u) : dictLookup (dictErase d u) v = dictLookup d v := by
  induction d with
  | nil => rfl
  | cons kv rest ih =>
      obtain ⟨k, w⟩ := kv
      rw [dictErase_cons]
      by_cases hk : k = u
      · subst hk
        rw [dictLookup_cons]
        simp [Ne.symm hne]
      · rw [if_neg (by simp [hk]), dictLookup_cons, dictLookup_cons]
        by_cases h2 : k = v
        · simp [h2]
        · simp [h2, ih]

theorem map_eq_self_of {α : Type} (l : List α) (f : α → α)
    (h : ∀ a ∈ l, f a = a) : l.map f = l := by
  induction l with
  | nil => rfl
  | cons a l ih =>
      rw [List.map_cons, h a (List.mem_cons_self a l),
        ih fun b hb => h b (List.mem_cons_of_mem a hb)]

theorem id_le_maxId (db : DB) (m : Message) (hm : m ∈ db) :
    m.id ≤ (db.map Message.id).foldr Nat.max 0 := by
  induction db with
  | nil => cases hm
  | cons a l ih =>
      rw [List.map_cons, List.foldr_cons]
      rcases List.mem_cons.mp hm with h | h
      · subst h
        exact Nat.le_max_left _ _
      · exact Nat.le_trans (ih h) (Nat.le_max_right _ _)

theorem id_lt_nextMessageId (db : DB) (m : Message) (hm : m ∈ db) :
    m.id < nextMessageId db :=
  Nat.lt_succ_of_le (id_le_maxId db m hm)

theorem markOne_fields (uid : Nat) (m : Message) :
    (markOne uid m).id = m.id ∧ (markOne uid m).sender_id = m.sender_id ∧
      (markOne uid m).receiver_id = m.receiver_id ∧
      (markOne uid m).content = m.content ∧
      (markOne uid m).timestamp = m.timestamp := by
  unfold markOne
  split <;> exact ⟨rfl, rfl, rfl, rfl, rfl⟩

theorem markDbOne_fields (uid pid : Nat) (m : Message) :
    (markDbOne uid pid m).id = m.id ∧ (markDbOne uid pid m).sender_id = m.sender_id ∧
      (markDbOne uid pid m).receiver_id = m.receiver_id ∧
      (markDbOne uid pid m).content = m.content ∧
      (markDbOne uid pid m).timestamp = m.timestamp := by
  unfold markDbOne
  split <;> exact ⟨rfl, rfl, rfl, rfl, rfl⟩

theorem projOut_serializeMsg_markOne (users : List User) (uid : Nat) (m : Message) :
    projOut (serializeMsg users (markOne uid m)) = projOut (serializeMsg users m) := by
  unfold markOne
  split <;> rfl

theorem projOut_serializeMsg_markDbOne (users : List User) (uid pid : Nat)
    (m : Message) :
    projOut (serializeMsg users (markDbOne uid pid m)) = projOut (serializeMsg users m) := by
  unfold markDbOne
  split <;> rfl

theorem timestamp_serializeMsg_markOne (users : List User) (uid : Nat) (m : Message) :
    (serializeMsg users (markOne uid m)).timestamp = m.timestamp := by
  unfold markOne
  split <;> rfl

theorem markDbOne_idem (uid pid : Nat) (m : Message) :
    markDbOne uid pid (markDbOne uid pid m) = markDbOne uid pid m := by
  rcases Bool.eq_false_or_eq_true
      (bothDirections uid pid m && (m.receiver_id == uid && m.is_read == 0)) with hc | hc
  · have h1 : markDbOne uid pid m = { m with is_read := 1 } := by
      rw [markDbOne, hc]
      simp
    rw [h1, markDbOne]
    simp
  · have h1 : markDbOne uid pid m = m := by rw [markDbOne, hc]; simp
    rw [h1]
    exact h1

theorem bothDirections_markDbOne (a b uid pid : Nat) (m : Message) :
    bothDirections a b (markDbOne uid pid m) = bothDirections a b m := by
  unfold markDbOne
  split <;> rfl

theorem tsLe_markDbOne (uid pid : Nat) (x y : Message) :
    tsLe x y ↔ tsLe (markDbOne uid pid x) (markDbOne uid pid y) := by
  unfold tsLe
  rw [(markDbOne_fields uid pid x).2.2.2.2, (markDbOne_fields uid pid y).2.2.2.2]

theorem bothDirections_comm (a b : Nat) (m : Message) :
    bothDirections a b m = bothDirections b a m := by
  unfold bothDirections
  exact Bool.or_comm _ _

theorem queryBothDirections_comm (a b : Nat) (db : DB) :
    queryBothDirections a b db = queryBothDirections b a db := by
  unfold queryBothDirections
  congr 1
  exact List.filter_congr fun m _ => bothDirections_comm a b m

/-! ## Claim theorems -/

/-- Claim C8 (confirmed): a `send_message` frame whose `to` display name
resolves to no user makes the sender receive an error frame, leaves the
handler active, creates no Message row and mutates no other state. -/
theorem claim8_unknown_recipient (username : String) (uid now : Nat)
    (pushOk : Bool) (toU txt : String) (users : List User) (db : DB)
    (conns : Connections)
    (hfind : users.find? (fun u => u.username == toU) = none) :
    (handleSendMessage username uid now pushOk toU txt users db conns).db = db ∧
    (handleSendMessage username uid now pushOk toU txt users db conns).conns = conns ∧
    (handleSendMessage username uid now pushOk toU txt users db conns).senderFrames =
      [Frame.error ("❌ Пользователь " ++ toU ++ " не найден")] ∧
    (handleSendMessage username uid now pushOk toU txt users db conns).pushed = none ∧
    (handleSendMessage username uid now pushOk toU txt users db conns).terminated = false := by
  refine ⟨?_, ?_, ?_, ?_, ?_⟩ <;> simp [handleSendMessage, hfind]

/-- Witness for C8: concrete unknown recipient `"zz"`. -/
theorem claim8_unknown_recipient_witness :
    (handleSendMessage "a" 1 5 true "zz" "hi" usersAB [] []).db = [] ∧
    (handleSendMessage "a" 1 5 true "zz" "hi" usersAB [] []).conns = [] ∧
    (handleSendMessage "a" 1 5 true "zz" "hi" usersAB [] []).senderFrames =
      [Frame.error ("❌ Пользователь " ++ "zz" ++ " не найден")] ∧
    (handleSendMessage "a" 1 5 true "zz" "hi" usersAB [] []).pushed = none ∧
    (handleSendMessage "a" 1 5 true "zz" "hi" usersAB [] []).terminated = false :=
  claim8_unknown_recipient "a" 1 5 true "zz" "hi" usersAB [] [] (by rfl)

/-- Claim C1 as stated is false on the code: with sender `a` active, `b`
online, and the push to `b` failing, the sender does NOT receive the
`message_sent` acknowledgment and the handler does not remain active (the
exception reaches `except Exception`, which deregisters the sender). -/
theorem claim1_counterexample :
    ¬ (Frame.messageSent "b" 1 5 ∈
          (handleSendMessage "a" 1 5 false "b" "hi" usersAB []
            [("a", { ws := 10, user_id := 1 }),
             ("b", { ws := 20, user_id := 2 })]).senderFrames ∧
        (handleSendMessage "a" 1 5 false "b" "hi" usersAB []
            [("a", { ws := 10, user_id := 1 }),
             ("b", { ws := 20, user_id := 2 })]).terminated = false) := by
  decide

/-- Claim C1 (amended): if the push to an online recipient fails, the
message has already been persisted and keeps `is_read = 0` (Sent), but no
frame at all is written back to the sender (no acknowledgment and no error
report), the sender's registry entry is deleted and the handler loop
terminates. -/
theorem claim1_push_failure (username : String) (uid now : Nat)
    (toU txt : String) (users : List User) (db : DB) (conns : Connections)
    (receiver : User) (entry : ConnEntry)
    (hfind : users.find? (fun u => u.username == toU) = some receiver)
    (hconn : dictLookup conns toU = some entry) :
    (handleSendMessage username uid now false toU txt users db conns).db =
      db ++ [{ id := nextMessageId db, sender_id := uid,
               receiver_id := receiver.id, content := txt, timestamp := now,
               is_read := 0 }] ∧
    (handleSendMessage username uid now false toU txt users db conns).senderFrames = [] ∧
    (handleSendMessage username uid now false toU txt users db conns).pushed = none ∧
    (handleSendMessage username uid now false toU txt users db conns).terminated = true ∧
    (keysNodup conns →
      dictLookup (handleSendMessage username uid now false toU txt users db conns).conns
        username = none) := by
  refine ⟨?_, ?_, ?_, ?_, ?_⟩
  · simp [handleSendMessage, hfind, hconn]
  · simp [handleSendMessage, hfind, hconn]
  · simp [handleSendMessage, hfind, hconn]
  · simp [handleSendMessage, hfind, hconn]
  · intro hnd
    have hc : (handleSendMessage username uid now false toU txt users db conns).conns =
        dictErase conns username := by
      simp [handleSendMessage, hfind, hconn]
    rw [hc]
    exact dictLookup_dictErase_self conns username hnd

/-- Witness for C1 (amended): `a` sends to online `b`, push fails. -/
theorem claim1_push_failure_witness :
    (handleSendMessage "a" 1 5 false "b" "hi" usersAB []
        [("a", { ws := 10, user_id := 1 }), ("b", { ws := 20, user_id := 2 })]).db =
      [] ++ [{ id := nextMessageId [], sender_id := 1,
               receiver_id := ({ id := 2, username := "b" } : User).id,
               content := "hi", timestamp := 5, is_read := 0 }] :=
  (claim1_push_failure "a" 1 5 "b" "hi" usersAB []
    [("a", { ws := 10, user_id := 1 }), ("b", { ws := 20, user_id := 2 })]
    { id := 2, username := "b" } { ws := 20, user_id := 2 } (by rfl) (by rfl)).1

/-- Claim C3 as stated is false on the code: the registry entry for `a`
holds handle 2 (the newer connection), yet the disconnect handling — which
in the source never compares connection handles — evicts it anyway, so a
disconnect event from the already-replaced stale connection (handle 1) is
not a no-op. -/
theorem claim3_counterexample :
    ¬ (wsDisconnect "a" [("a", { ws := 2, user_id := 1 })] =
        [("a", { ws := 2, user_id := 1 })]) := by
  decide

/-- Claim C3 (amended): the disconnect handling deletes the identity's
registry entry unconditionally, whatever connection handle raised the
disconnect; entries of other identities are untouched. -/
theorem claim3_deregister_unconditional (username : String) (conns : Connections)
    (h : keysNodup conns) :
    dictLookup (wsDisconnect username conns) username = none ∧
    ∀ v, v ≠ username →
      dictLookup (wsDisconnect username conns) v = dictLookup conns v :=
  ⟨dictLookup_dictErase_self conns username h,
    fun v hv => dictLookup_dictErase_ne conns username v hv⟩

/-- Witness for C3 (amended). -/
theorem claim3_deregister_unconditional_witness :
    dictLookup (wsDisconnect "a" [("a", { ws := 2, user_id := 1 })]) "a" = none :=
  (claim3_deregister_unconditional "a" [("a", { ws := 2, user_id := 1 })]
    (by decide)).1

/-- Claim C4 as stated is false on the code: when `a` reconnects (new
handle 6) over an existing entry (handle 5), the evicted prior handle is
closed zero times, not exactly once — the source never closes it. -/
theorem claim4_counterexample :
    ¬ ((wsConnect "a" 6 sessionsA [("a", { ws := 5, user_id := 1 })]).closed.count 5 = 1) := by
  decide

/-- Claim C4 (amended): registering a second connection for an identity
already present replaces exactly the prior entry — afterwards `lookup`
returns only the new handle, the registry still maps at most one
connection per identity, other identities are untouched — but the evicted
prior connection handle is never closed. -/
theorem claim4_register_replaces (username : String) (ws uid : Nat)
    (sessions : Sessions) (conns : Connections) (old : ConnEntry)
    (hs : dictLookup sessions username = some uid)
    (_hold : dictLookup conns username = some old)
    (hnd : keysNodup conns) :
    (wsConnect username ws sessions conns).accepted = true ∧
    dictLookup (wsConnect username ws sessions conns).conns username =
      some { ws := ws, user_id := uid } ∧
    keysNodup (wsConnect username ws sessions conns).conns ∧
    (∀ v, v ≠ username →
      dictLookup (wsConnect username ws sessions conns).conns v = dictLookup conns v) ∧
    (wsConnect username ws sessions conns).closed = [] := by
  simp only [wsConnect, hs]
  exact ⟨by trivial, dictLookup_dictInsert_self conns username _,
    keysNodup_dictInsert conns username _ hnd,
    fun v hv => dictLookup_dictInsert_ne conns username v _ hv, by trivial⟩

/-- Witness for C4 (amended): after `a` reconnects with handle 6, lookup
returns only the new handle. -/
theorem claim4_register_replaces_witness :
    dictLookup (wsConnect "a" 6 sessionsA [("a", { ws := 5, user_id := 1 })]).conns "a" =
      some { ws := 6, user_id := 1 } :=
  (claim4_register_replaces "a" 6 1 sessionsA [("a", { ws := 5, user_id := 1 })]
    { ws := 5, user_id := 1 } (by rfl) (by rfl) (by decide)).2.1

/-- Claim C2 (confirmed): no operation of the core — persisting a send,
the live-push delivery update, or a history fetch — ever writes an
`is_read` state lower than a message's current one (the code's two-valued
counterpart of the Sent < Delivered/Read order; both a live push and a
history fetch only ever write `1` over `0`). -/
theorem claim2_is_read_monotone (users : List User) (conns : Connections)
    (db : DB) (op : Op) (i : Nat) (m : Message) (h : db[i]? = some m) :
    ∃ m', (applyOp users conns db op)[i]? = some m' ∧ m'.id = m.id ∧
      m.is_read ≤ m'.is_read := by
  have hmem : m ∈ db := List.getElem?_mem h
  have hlen : i < db.length := (List.getElem?_eq_some_iff.mp h).1
  cases op with
  | fetchHistory uid pid =>
      refine ⟨markDbOne uid pid m, ?_, (markDbOne_fields uid pid m).1, ?_⟩
      · simp only [applyOp, get_messages, markDbRead]
        rw [List.getElem?_map, h]
        rfl
      · rcases Bool.eq_false_or_eq_true
            (bothDirections uid pid m && (m.receiver_id == uid && m.is_read == 0)) with hc | hc
        · have h0 : m.is_read = 0 := by
            simp only [Bool.and_eq_true, beq_iff_eq] at hc
            exact hc.2.2
          rw [markDbOne, hc]
          simp [h0]
        · rw [markDbOne, hc]
          simp
  | send u2 uid now ok toU txt =>
      simp only [applyOp]
      cases hfind : users.find? (fun u => u.username == toU) with
      | none =>
          refine ⟨m, ?_, rfl, Nat.le_refl _⟩
          simp [handleSendMessage, hfind, h]
      | some receiver =>
          cases hlook : dictLookup conns toU with
          | none =>
              refine ⟨m, ?_, rfl, Nat.le_refl _⟩
              simp only [handleSendMessage, hfind, hlook]
              rw [List.getElem?_append_left hlen]
              exact h
          | some entry =>
              cases ok with
              | false =>
                  refine ⟨m, ?_, rfl, Nat.le_refl _⟩
                  simp only [handleSendMessage, hfind, hlook, Bool.false_eq_true,
                    if_false]
                  rw [List.getElem?_append_left hlen]
                  exact h
              | true =>
                  refine ⟨m, ?_, rfl, Nat.le_refl _⟩
                  simp only [handleSendMessage, hfind, hlook, if_true]
                  rw [List.getElem?_map, List.getElem?_append_left hlen, h]
                  have hne : m.id ≠ nextMessageId db :=
                    Nat.ne_of_lt (id_lt_nextMessageId db m hmem)
                  simp [hne]

/-- Witness for C2: the history fetch by user 2 on a one-message table. -/
theorem claim2_is_read_monotone_witness :
    ∃ m', (applyOp usersAB [] [msgX] (Op.fetchHistory 2 1))[0]? = some m' ∧
      m'.id = msgX.id ∧ msgX.is_read ≤ m'.is_read :=
  claim2_is_read_monotone usersAB [] [msgX] (Op.fetchHistory 2 1) 0 msgX (by rfl)

/-- Claim C6 (confirmed): a history fetch by `uid` with partner `pid`
advances exactly the stored messages that are in the result (both
directions of the pair) with `receiver_id = uid` and `is_read = 0`, and
advances them directly to the read state (`is_read = 1` — the code has no
intermediate Delivered value, so a Sent message moves straight to Read);
messages the requester sent, already-read messages, and messages outside
the pair are returned/kept unchanged. -/
theorem claim6_history_marks_exactly (uid pid : Nat) (users : List User)
    (db : DB) (i : Nat) (m : Message) (h : db[i]? = some m) :
    ∃ m', ((get_messages uid pid users db).1)[i]? = some m' ∧
      m'.id = m.id ∧ m'.sender_id = m.sender_id ∧
      m'.receiver_id = m.receiver_id ∧ m'.content = m.content ∧
      m'.timestamp = m.timestamp ∧
      (bothDirections uid pid m = true → m.receiver_id = uid →
        m.is_read = 0 → m'.is_read = 1) ∧
      (m.receiver_id ≠ uid → m' = m) ∧
      (m.is_read ≠ 0 → m' = m) ∧
      (bothDirections uid pid m = false → m' = m) := by
  refine ⟨markDbOne uid pid m, ?_, (markDbOne_fields uid pid m).1,
    (markDbOne_fields uid pid m).2.1, (markDbOne_fields uid pid m).2.2.1,
    (markDbOne_fields uid pid m).2.2.2.1, (markDbOne_fields uid pid m).2.2.2.2,
    ?_, ?_, ?_, ?_⟩
  · simp only [get_messages, markDbRead]
    rw [List.getElem?_map, h]
    rfl
  · intro h1 h2 h3
    rw [markDbOne]
    simp [h1, h2, h3]
  · intro h2
    rw [markDbOne]
    simp [h2]
  · intro h3
    rw [markDbOne]
    simp [h3]
  · intro h4
    rw [markDbOne]
    simp [h4]

/-- Witness for C6: fetch by user 2 of the pair (2,1) over one unread
message from 1 to 2. -/
theorem claim6_history_marks_exactly_witness :
    ∃ m', ((get_messages 2 1 usersAB [msgX]).1)[0]? = some m' ∧
      m'.id = msgX.id ∧ m'.sender_id = msgX.sender_id ∧
      m'.receiver_id = msgX.receiver_id ∧ m'.content = msgX.content ∧
      m'.timestamp = msgX.timestamp ∧
      (bothDirections 2 1 msgX = true → msgX.receiver_id = 2 →
        msgX.is_read = 0 → m'.is_read = 1) ∧
      (msgX.receiver_id ≠ 2 → m' = msgX) ∧
      (msgX.is_read ≠ 0 → m' = msgX) ∧
      (bothDirections 2 1 msgX = false → m' = msgX) :=
  claim6_history_marks_exactly 2 1 usersAB [msgX] 0 msgX (by rfl)

/-- Claim C10 (confirmed): in the response of a history fetch, every
returned message whose stored `receiver_id` equals the requesting
`user_id` is serialized with `is_read = true` — the marking is applied to
the result objects before serialization. -/
theorem claim10_response_receiver_read (uid pid : Nat) (users : List User)
    (db : DB) (m : Message)
    (hm : m ∈ markMessagesRead uid (queryBothDirections uid pid db))
    (hr : m.receiver_id = uid) :
    serializeMsg users m ∈ (get_messages uid pid users db).2 ∧
      (serializeMsg users m).is_read = true := by
  constructor
  · simp only [get_messages]
    exact List.mem_map_of_mem _ hm
  · rcases List.mem_map.mp hm with ⟨m0, hm0, heq⟩
    subst heq
    rw [(markOne_fields uid m0).2.2.1] at hr
    rcases Bool.eq_false_or_eq_true (m0.receiver_id == uid && m0.is_read == 0)
        with hc | hc
    · have h1 : markOne uid m0 = { m0 with is_read := 1 } := by
        rw [markOne, hc]
        simp
      rw [h1]
      rfl
    · have h1 : markOne uid m0 = m0 := by rw [markOne, hc]; simp
      rw [h1]
      have h2 : (m0.is_read == 0) = false := by
        simpa [hr] using hc
      show (m0.is_read != 0) = true
      simp only [bne, h2]
      rfl

/-- Witness for C10: the single returned message received by user 2. -/
theorem claim10_response_receiver_read_witness :
    serializeMsg usersAB { msgX with is_read := 1 } ∈
      (get_messages 2 1 usersAB [msgX]).2 ∧
    (serializeMsg usersAB { msgX with is_read := 1 }).is_read = true :=
  claim10_response_receiver_read 2 1 usersAB [msgX]
    { msgX with is_read := 1 } (by decide) (by rfl)

/-- Claim C5 (confirmed): every conversation summary reports as
`unread_count` exactly the number of stored messages from that partner to
the requesting identity that are still unread (`is_read = 0`, the code's
not-yet-read state); in particular, in the scenario where `a` sends "hi"
to the offline `b`, `b`'s summary for `a` shows `unread_count = 1` and
`last_message = "hi"`, and after `b` fetches the history with `a` the
summary shows `unread_count = 0`. -/
theorem claim5_unread_count (uid : Nat) (users : List User) (db : DB) :
    (∀ c ∈ get_user_chats uid users db,
        c.unread_count = unreadCount uid c.partner_id db) ∧
    get_user_chats 2 usersAB scenarioDb =
      [{ partner_id := 1, partner_username := "a", last_message := "hi",
         last_message_time := some 100, unread_count := 1 }] ∧
    get_user_chats 2 usersAB (get_messages 2 1 usersAB scenarioDb).1 =
      [{ partner_id := 1, partner_username := "a", last_message := "hi",
         last_message_time := some 100, unread_count := 0 }] := by
  refine ⟨?_, by decide, by decide⟩
  intro c hc
  simp only [get_user_chats] at hc
  rcases List.mem_filterMap.mp hc with ⟨pid, _, hpid⟩
  cases hfind : users.find? (fun u => u.id == pid) with
  | none =>
      rw [hfind] at hpid
      simp at hpid
  | some partner =>
      rw [hfind] at hpid
      simp only [Option.some.injEq] at hpid
      have hpe : partner.id = pid := by
        have hp := List.find?_some hfind
        simpa using hp
      subst hpid
      show unreadCount uid pid db = unreadCount uid partner.id db
      rw [hpe]

/-- Witness for C5: the summary `b` sees for `a` in the scenario. -/
theorem claim5_unread_count_witness :
    ({ partner_id := 1, partner_username := "a", last_message := "hi",
       last_message_time := some 100, unread_count := 1 } : ChatSummary).unread_count =
      unreadCount 2
        ({ partner_id := 1, partner_username := "a", last_message := "hi",
           last_message_time := some 100, unread_count := 1 } : ChatSummary).partner_id
        scenarioDb :=
  (claim5_unread_count 2 usersAB scenarioDb).1 _ (by decide)

/-- Claim C9 (confirmed): a connected user sending to their own username
succeeds — the session registration guarantees the sender is online, so a
message with `sender_id = receiver_id` is persisted, immediately marked
read by the successful push (`is_read = 1`), the `new_message` frame is
pushed to the sender's own connection handle, and the sender also receives
the `message_sent` acknowledgment. -/
theorem claim9_self_send (username : String) (ws uid now : Nat) (txt : String)
    (users : List User) (sessions : Sessions) (conns : Connections) (db : DB)
    (selfUser : User)
    (hs : dictLookup sessions username = some uid)
    (hfind : users.find? (fun u => u.username == username) = some selfUser)
    (hid : selfUser.id = uid) :
    (wsConnect username ws sessions conns).accepted = true ∧
    (handleSendMessage username uid now true username txt users db
        (wsConnect username ws sessions conns).conns).db =
      db ++ [{ id := nextMessageId db, sender_id := uid, receiver_id := uid,
               content := txt, timestamp := now, is_read := 1 }] ∧
    (handleSendMessage username uid now true username txt users db
        (wsConnect username ws sessions conns).conns).pushed =
      some (ws, Frame.newMessage username uid txt now (nextMessageId db)) ∧
    (handleSendMessage username uid now true username txt users db
        (wsConnect username ws sessions conns).conns).senderFrames =
      [Frame.messageSent username (nextMessageId db) now] ∧
    (handleSendMessage username uid now true username txt users db
        (wsConnect username ws sessions conns).conns).terminated = false := by
  have hcon : dictLookup (wsConnect username ws sessions conns).conns username =
      some { ws := ws, user_id := uid } := by
    simp only [wsConnect, hs]
    exact dictLookup_dictInsert_self conns username _
  refine ⟨by simp [wsConnect, hs], ?_, ?_, ?_, ?_⟩
  · simp only [handleSendMessage, hfind, hcon, if_true]
    rw [List.map_append]
    have h1 : db.map (fun m =>
        if m.id == nextMessageId db then { m with is_read := 1 } else m) = db :=
      map_eq_self_of db _ (fun m hm => by
        simp [Nat.ne_of_lt (id_lt_nextMessageId db m hm)])
    rw [h1]
    simp [hid]
  · simp [handleSendMessage, hfind, hcon]
  · simp [handleSendMessage, hfind, hcon]
  · simp [handleSendMessage, hfind, hcon]

/-- Witness for C9: `a` (id 1, handle 10) sends "hi" to `a`. -/
theorem claim9_self_send_witness :
    (wsConnect "a" 10 sessionsA []).accepted = true ∧
    (handleSendMessage "a" 1 7 true "a" "hi" usersAB []
        (wsConnect "a" 10 sessionsA []).conns).db =
      [] ++ [{ id := nextMessageId [], sender_id := 1, receiver_id := 1,
               content := "hi", timestamp := 7, is_read := 1 }] ∧
    (handleSendMessage "a" 1 7 true "a" "hi" usersAB []
        (wsConnect "a" 10 sessionsA []).conns).pushed =
      some (10, Frame.newMessage "a" 1 "hi" 7 (nextMessageId [])) ∧
    (handleSendMessage "a" 1 7 true "a" "hi" usersAB []
        (wsConnect "a" 10 sessionsA []).conns).senderFrames =
      [Frame.messageSent "a" (nextMessageId []) 7] ∧
    (handleSendMessage "a" 1 7 true "a" "hi" usersAB []
        (wsConnect "a" 10 sessionsA []).conns).terminated = false :=
  claim9_self_send "a" 10 1 7 "hi" usersAB sessionsA [] []
    { id := 1, username := "a" } (by rfl) (by rfl) (by rfl)

/-- Claim C7 as stated is false on the code: with one unread message from
user 1 to user 2, user 1 fetching `history(1,2)` changes nothing, but user
2 then fetching `history(2,1)` does change state — it marks the message
read — so the second fetch is not state-preserving. -/
theorem claim7_counterexample :
    ¬ ((get_messages 2 1 usersAB (get_messages 1 2 usersAB
          [{ id := 1, sender_id := 1, receiver_id := 2, content := "hi",
             timestamp := 100, is_read := 0 }]).1).1 =
        (get_messages 1 2 usersAB
          [{ id := 1, sender_id := 1, receiver_id := 2, content := "hi",
             timestamp := 100, is_read := 0 }]).1) := by
  decide

/-- Claim C7 (amended): `history(A,B)` and `history(B,A)` return the same
messages (equal ids, senders, sender names, contents and timestamps, in
the same order, ascending by `created_at`); re-fetching as the same
requester changes no state (the read-marking is idempotent); and after A
has fetched `history(A,B)`, fetching `history(B,A)` as B still returns
that same message content — but it may change state, advancing B-received
unread messages to read. -/
theorem claim7_history_symmetric (A B : Nat) (users : List User) (db : DB) :
    ((get_messages A B users db).2).map projOut =
        ((get_messages B A users db).2).map projOut ∧
    ((get_messages A B users db).2).Pairwise
        (fun x y => x.timestamp ≤ y.timestamp) ∧
    (get_messages A B users ((get_messages A B users db).1)).1 =
        (get_messages A B users db).1 ∧
    ((get_messages B A users ((get_messages A B users db).1)).2).map projOut =
        ((get_messages A B users db).2).map projOut := by
  have hq : queryBothDirections B A db = queryBothDirections A B db :=
    queryBothDirections_comm B A db
  refine ⟨?_, ?_, ?_, ?_⟩
  · simp only [get_messages, markMessagesRead, List.map_map]
    rw [hq]
    refine List.map_congr_left fun m hm => ?_
    simp only [Function.comp_apply]
    rw [projOut_serializeMsg_markOne, projOut_serializeMsg_markOne]
  · simp only [get_messages, markMessagesRead, List.map_map]
    rw [List.pairwise_map]
    have hs : (queryBothDirections A B db).Pairwise tsLe :=
      List.sorted_insertionSort tsLe (db.filter (fun m => bothDirections A B m))
    refine hs.imp fun h => ?_
    simp only [Function.comp_apply]
    rw [timestamp_serializeMsg_markOne, timestamp_serializeMsg_markOne]
    exact h
  · simp only [get_messages, markDbRead, List.map_map]
    refine List.map_congr_left fun m hm => ?_
    simp only [Function.comp_apply]
    exact markDbOne_idem A B m
  · have hqq : queryBothDirections B A (markDbRead A B db) =
        (queryBothDirections A B db).map (markDbOne A B) := by
      simp only [queryBothDirections, markDbRead]
      rw [List.filter_map]
      rw [show (db.filter ((fun m => bothDirections B A m) ∘ markDbOne A B)) =
            db.filter (fun m => bothDirections A B m) from
          List.filter_congr fun m _ => by
            simp only [Function.comp_apply]
            rw [bothDirections_markDbOne, bothDirections_comm]]
      exact (List.map_insertionSort tsLe tsLe (markDbOne A B)
        (db.filter (fun m => bothDirections A B m))
        (fun a _ b _ => tsLe_markDbOne A B a b)).symm
    simp only [get_messages, markMessagesRead, List.map_map]
    rw [hqq, List.map_map]
    refine List.map_congr_left fun m hm => ?_
    simp only [Function.comp_apply]
    rw [projOut_serializeMsg_markOne, projOut_serializeMsg_markDbOne,
      projOut_serializeMsg_markOne]
